import Mathlib

/-!
Verification of the AgenticAiBot4Tomcat remote-provisioning layer.

Shallow embedding of the Python modules under `Remote/`:
* `Remote/remote_executor.py` (`RemoteExecutor.run`, `RemoteExecutor.detect_os`)
* `Remote/run_remote_workflow.py` (`RemoteWorkflowRunner.run_for_server`)
* `Remote/post_install/tomcat_start.py` (`RemoteTomcatStartTool`)
* `Remote/post_install/tomcat_validation.py` (`RemoteTomcatValidationTool`)
* `Remote/pre_install/remote_port_check.py` (`RemotePortCheckTool`)
* `Remote/utilities/config_loader.py` (`load_server_ini`, `merge_dict`, `_deep_merge`)
* `Remote/tool_base.py` (`RemoteTool.get_info`)

Python dictionaries are modelled as insertion-ordered association lists,
Python values by the inductive `PyVal`, wall-clock instants by rationals, and
the effects of the SSH / HTTP libraries by explicit traces handed to the
embedded functions (chunk sequences, poll outcomes, attempt outcomes).
-/

namespace Tomcat

/-- Model of a Python value as stored in the configuration / result
dictionaries of the repository.  Dictionaries are insertion-ordered
association lists, exactly like CPython dicts. -/
inductive PyVal where
  | str (s : String)
  | int (n : Int)
  | float (q : Rat)
  | bool (b : Bool)
  | none
  | dict (entries : List (String × PyVal))
  | list (items : List PyVal)

/-- A Python dictionary with string keys (the only kind the repository uses). -/
abbrev Dict := List (String × PyVal)

/-- `d.get(k)` on a Python dict: first binding for `k`, if any. -/
def lookupKey (d : Dict) (k : String) : Option PyVal :=
  match d with
  | [] => Option.none
  | (kk, v) :: rest => if kk = k then some v else lookupKey rest k

/-- `d.get(k)` where the absent case is Python `None`. -/
def getD (d : Dict) (k : String) : PyVal :=
  (lookupKey d k).getD PyVal.none

/-- `d[k] = v` on a Python dict: replace the binding in place if the key is
present, otherwise append it (CPython insertion order). -/
def setKey (d : Dict) (k : String) (v : PyVal) : Dict :=
  match d with
  | [] => [(k, v)]
  | (kk, vv) :: rest => if kk = k then (k, v) :: rest else (kk, vv) :: setKey rest k v

/-- Python truthiness for the modelled values. -/
def pyTruthy : PyVal → Bool
  | .str s => s ≠ ""
  | .int n => n ≠ 0
  | .float q => q ≠ 0
  | .bool b => b
  | .none => false
  | .dict d => !d.isEmpty
  | .list l => !l.isEmpty

/-- Python `a or b`: `a` when truthy, else `b`. -/
def pyOr (a b : PyVal) : PyVal := if pyTruthy a then a else b

/-- Projection used in statements: the status string of a result dict. -/
def statusOf (d : Dict) : Option String :=
  match lookupKey d "status" with
  | some (.str s) => some s
  | _ => Option.none

/-- Projection used in statements: the details string of a result dict. -/
def detailsOf (d : Dict) : Option String :=
  match lookupKey d "details" with
  | some (.str s) => some s
  | _ => Option.none

/-- Whether a result dict carries the given key at all. -/
def hasKey (d : Dict) (k : String) : Bool := (lookupKey d k).isSome

/-! ## `Remote/remote_executor.py` — `RemoteExecutor.run` (lines 22–68)

The paramiko channel is modelled by the trace the polling loop observes:
one `PollStep` per iteration of the `while True:` loop (the chunks drained by
the two inner `while recv_ready` loops, the value of `exit_status_ready()`,
and the elapsed wall-clock time `time.time() - start_time` seen at the
deadline check), plus the data visible after the loop breaks
(`recv_exit_status()` and the final drains of lines 55–58).  Byte strings are
lists of byte values; `bytes.decode(errors="replace")` is a library function
and is therefore passed in as an explicit `decode` parameter. -/

/-- One iteration of the polling loop in `RemoteExecutor.run`. -/
structure PollStep where
  stdoutChunks : List (List Nat)
  stderrChunks : List (List Nat)
  exitReady : Bool
  elapsed : Rat

/-- What the channel yields once `exit_status_ready()` is true. -/
structure ChannelEnd where
  exitStatus : Int
  finalStdout : List (List Nat)
  finalStderr : List (List Nat)

/-- Outcome of `RemoteExecutor.run`. -/
inductive RunResult where
  | timedOut (msg : String)
  | ok (stdout stderr : String)
  | looping
deriving DecidableEq

/-- The guard `timeout and timeout > 0` of lines 31 and 48: Python `None` and
`0` are falsy, so a deadline is enforced exactly for positive timeouts. -/
def timeoutActive (timeout : Option Rat) : Bool :=
  match timeout with
  | Option.none => false
  | some t => decide (t ≠ 0) && decide (t > 0)

/-- Line 65–66 of `RemoteExecutor.run`: a failing command that produced no
stderr gets the synthetic message substituted for the captured stream. -/
def stderrFallback (exitStatus : Int) (stderrData : String) : String :=
  if exitStatus ≠ 0 ∧ stderrData = "" then
    s!"Command exited with status {exitStatus}"
  else stderrData

/-- Lines 54–68 of `RemoteExecutor.run`: read the exit status, drain the two
buffers one last time, join and decode both streams, and substitute the
synthetic message when the command failed without producing stderr. -/
def finishRun (chEnd : ChannelEnd) (decode : List Nat → String)
    (accOut accErr : List (List Nat)) : RunResult :=
  let stdoutData := decode (accOut ++ chEnd.finalStdout).flatten
  let stderrData := decode (accErr ++ chEnd.finalStderr).flatten
  .ok stdoutData (stderrFallback chEnd.exitStatus stderrData)

/-- The deadline test of line 48: `timeout and timeout > 0 and
(time.time() - start_time) > timeout`. -/
def deadlineExceeded (timeout : Option Rat) (s : PollStep) : Bool :=
  timeoutActive timeout && (match timeout with
    | some t => decide (s.elapsed > t)
    | Option.none => false)

/-- The message of the `TimeoutError` raised at line 50. -/
def timeoutMsg (timeout : Option Rat) : String :=
  match timeout with
  | some t => s!"Remote command timed out after {t} seconds"
  | Option.none => ""

/-- The `while True:` loop of lines 39–52: drain both buffers, break when the
exit status is ready, otherwise raise `TimeoutError` when a positive timeout
has been exceeded.  When the observed trace runs out with the loop still
going, the result is `.looping`. -/
def runLoop (timeout : Option Rat) (chEnd : ChannelEnd)
    (decode : List Nat → String) :
    List PollStep → List (List Nat) → List (List Nat) → RunResult
  | [], _, _ => .looping
  | s :: rest, accOut, accErr =>
    let accOut := accOut ++ s.stdoutChunks
    let accErr := accErr ++ s.stderrChunks
    if s.exitReady then
      finishRun chEnd decode accOut accErr
    else if deadlineExceeded timeout s then
      .timedOut (timeoutMsg timeout)
    else
      runLoop timeout chEnd decode rest accOut accErr

/-- `RemoteExecutor.run` (lines 22–68) on an observed channel trace. -/
def executorRun (timeout : Option Rat) (steps : List PollStep)
    (chEnd : ChannelEnd) (decode : List Nat → String) : RunResult :=
  runLoop timeout chEnd decode steps [] []

/-- Chunks drained from stdout across the given loop iterations, in arrival
order. -/
def drainedOut (steps : List PollStep) : List (List Nat) :=
  (steps.map PollStep.stdoutChunks).flatten

/-- Chunks drained from stderr across the given loop iterations, in arrival
order. -/
def drainedErr (steps : List PollStep) : List (List Nat) :=
  (steps.map PollStep.stderrChunks).flatten

/-! ## `Remote/remote_executor.py` — `RemoteExecutor.detect_os` (lines 70–81) -/

/-- Python substring test `pat in s`. -/
def strContains (s pat : String) : Bool :=
  s.toList.tails.any (fun t => pat.toList.isPrefixOf t)

/-- Python `str.strip()` with no argument: remove leading and trailing
whitespace. -/
def pyStrip (s : String) : String :=
  String.mk (((s.toList.dropWhile Char.isWhitespace).reverse.dropWhile
    Char.isWhitespace).reverse)

/-- Python `str.lower()` (character-wise lowering, as used on ASCII section
names). -/
def pyLower (s : String) : String :=
  String.mk (s.toList.map Char.toLower)

/-- `RemoteExecutor.detect_os`: `unameOut` is the stdout of `self.run("uname")`
and `psOut` the stdout of the PowerShell OS-caption command, which the method
only executes when the first check fails. -/
def detect_os (unameOut : String) (psOut : String) : String :=
  if strContains unameOut "Linux" then "linux"
  else if pyStrip psOut ≠ "" then "windows"
  else "unknown"

/-! ## `Remote/utilities/config_loader.py` — `merge_dict` / `_deep_merge`
(lines 40–58) -/

mutual

/-- `_deep_merge` (lines 47–58): start from a copy of `base` and fold the
`overrides.items()` in insertion order. -/
def deep_merge : Dict → Dict → Dict
  | merged, [] => merged
  | merged, (k, v) :: rest => deep_merge (mergeEntry merged k v) rest
termination_by _merged overrides => sizeOf overrides

/-- Body of the `for key, value in overrides.items()` loop of `_deep_merge`:
when both sides hold dicts under the key the values are merged recursively,
otherwise the override value is stored. -/
def mergeEntry (merged : Dict) (k : String) (v : PyVal) : Dict :=
  match lookupKey merged k, v with
  | some (.dict mv), .dict ov => setKey merged k (.dict (deep_merge mv ov))
  | _, _ => setKey merged k v
termination_by sizeOf v

end

/-- `merge_dict` (lines 40–44): fold `_deep_merge` over the override layers,
starting from a copy of `base`. -/
def merge_dict (base : Dict) (overrides : List Dict) : Dict :=
  overrides.foldl deep_merge base

/-- Key-wise specification of `_deep_merge`: when both sides hold dicts the
values are merged recursively, otherwise an override value replaces the base
value, and keys absent from the overrides keep their base value. -/
def mergedLookup (base ov : Dict) (k : String) : Option PyVal :=
  match lookupKey base k, lookupKey ov k with
  | some (.dict bv), some (.dict o) => some (.dict (deep_merge bv o))
  | _, some v => some v
  | r, Option.none => r

/-! ## `Remote/pre_install/remote_port_check.py` — `RemotePortCheckTool`
(lines 26–51, 144–166) -/

/-- Python `"\n".join(xs)`. -/
def joinLines (xs : List String) : String := String.intercalate "\n" xs

/-- One entry of the iterable handed to `_normalize_ports`, abstracted by the
outcome of the `int(...)` conversion that the loop body applies to it:
`some n` when `int(item.strip())` (string entries) or `int(item)` (other
entries) succeeds with value `n`, `none` when the conversion raises
`ValueError`/`TypeError` and the entry is skipped by `continue`. -/
abbrev PortItem := Option Int

/-- Python `sorted(set(xs))` on a list of ints: the distinct values in
ascending order. -/
def pySortedSet (l : List Int) : List Int :=
  List.insertionSort (· ≤ ·) l.dedup

/-- `RemotePortCheckTool._normalize_ports` (lines 144–157): convert each
entry, skipping failures, then `sorted(set(normalized))`. -/
def normalize_ports (ports : List PortItem) : List Int :=
  pySortedSet (ports.filterMap id)

/-- `RemotePortCheckTool._failure` (lines 159–166). -/
def portCheckFailure (message : String) (logs : List String) : Dict :=
  [("name", .str "remote_port_check"),
   ("status", .str "Failed"),
   ("command", .str "remote_port_check"),
   ("details", .str message),
   ("output", .str (joinLines logs))]

/-- `RemotePortCheckTool.run` (lines 26–51).  `osType` is the observed result
of `executor.detect_os()`, `portsArg` the optional explicit ports argument,
`cfgPorts` the `os_cfg.get("ports", [8080, 8005, 8009])` value, and
`checkResult` the result the OS-specific check (`_check_windows` /
`_check_linux`, which execute remote commands) returns on the normalized
list. -/
def portCheck_run (osType : String) (portsArg : Option (List PortItem))
    (cfgPorts : List PortItem) (checkResult : Dict) : Dict :=
  let logs := [s!"Detected OS: {osType}"]
  let portValues := match portsArg with
    | some p => p
    | Option.none => cfgPorts
  let portList := normalize_ports portValues
  if portList.isEmpty then
    portCheckFailure "No valid ports supplied for inspection" logs
  else if osType = "windows" then checkResult
  else if osType = "linux" then checkResult
  else portCheckFailure "Unsupported operating system" logs

/-! ## `Remote/utilities/config_loader.py` — `load_server_ini` (lines 15–37) -/

/-- Association-list lookup with string keys (used for the INI model). -/
def alookup {α : Type} (d : List (String × α)) (k : String) : Option α :=
  match d with
  | [] => Option.none
  | (kk, v) :: rest => if kk = k then some v else alookup rest k

/-- A parsed INI file as `configparser` presents it to `load_server_ini`:
`parser.sections()` in file order, each with its `parser.items(section)`
pairs, plus the `os.path.isfile(path)` observation. -/
structure IniData where
  isFile : Bool
  sections : List (String × List (String × String))

/-- The exceptions `load_server_ini` raises. -/
inductive IniError where
  | fileNotFound (msg : String)
  | valueError (msg : String)
deriving DecidableEq

/-- `d[k] = v` on a string-valued dict (in-place update or append). -/
def setStr (d : List (String × String)) (k v : String) :
    List (String × String) :=
  match d with
  | [] => [(k, v)]
  | (kk, vv) :: rest =>
    if kk = k then (k, v) :: rest else (kk, vv) :: setStr rest k v

/-- `data.update(items)`: apply the item assignments in order. -/
def updateAll (d items : List (String × String)) : List (String × String) :=
  items.foldl (fun acc kv => setStr acc kv.1 kv.2) d

/-- Lines 28–30: `data = defaults.copy()`, `data.update(parser.items(section))`,
`data.setdefault("name", section)` (a `setdefault` on an absent key appends
the binding). -/
def mergeSection (defaults : List (String × String)) (sec : String)
    (items : List (String × String)) : List (String × String) :=
  let data := updateAll defaults items
  if (alookup data "name").isNone then data ++ [("name", sec)] else data

/-- `not data.get(field)`: key absent or mapped to an empty string. -/
def fieldMissing (data : List (String × String)) (f : String) : Bool :=
  match alookup data f with
  | Option.none => true
  | some s => s == ""

/-- Lines 31–32: `[field for field in required if not data.get(field)]`. -/
def missingFields (data : List (String × String)) : List String :=
  ["host", "username"].filter (fun f => fieldMissing data f)

/-- Python `", ".join(xs)`. -/
def joinComma (xs : List String) : String := String.intercalate ", " xs

/-- The `for section in parser.sections():` loop of lines 25–35, raising
`ValueError` at the first offending section. -/
def iniLoop (defaults : List (String × String)) :
    List (String × List (String × String)) →
      Except IniError (List (List (String × String)))
  | [] => .ok []
  | (sec, items) :: rest =>
    if pyLower sec = "defaults" then iniLoop defaults rest
    else
      if (missingFields (mergeSection defaults sec items)).isEmpty then
        match iniLoop defaults rest with
        | .ok rs => .ok (mergeSection defaults sec items :: rs)
        | .error e => .error e
      else
        .error (.valueError
          (s!"Section \x27{sec}\x27 missing required fields: "
            ++ joinComma (missingFields (mergeSection defaults sec items))))

/-- `load_server_ini` (lines 15–37): `FileNotFoundError` when the path is
not a file; otherwise the defaults come from the exact-case `defaults`
section (`parser.has_section("defaults")`) and the loop builds one record
per section whose lowercase name is not `defaults`. -/
def load_server_ini (path : String) (ini : IniData) :
    Except IniError (List (List (String × String))) :=
  if !ini.isFile then
    .error (.fileNotFound s!"Server INI file not found: {path}")
  else
    let defaults := (alookup ini.sections "defaults").getD []
    iniLoop defaults ini.sections

/-! ## `Remote/post_install/tomcat_start.py` — `RemoteTomcatStartTool` -/

/-- Outcome of one `executor.run(...)` call as observed by a tool: the
captured `(stdout, stderr)` pair, or a raised `TimeoutError` with its
message. -/
inductive ExecOutcome where
  | ok (stdout stderr : String)
  | timeout (msg : String)
deriving DecidableEq

/-- Characters `shlex.quote` considers safe: ASCII word characters and
`@ % + = : , .` plus slash and dash (the complement of the `_find_unsafe`
regex of the `shlex` module). -/
def shlexSafeChar (c : Char) : Bool :=
  c.isAlphanum || c = '_' || c = '@' || c = '%' || c = '+' || c = '=' ||
    c = ':' || c = ',' || c = '.' || c = '/' || c = '-'

/-- Left-to-right non-overlapping replacement on character lists (the
behaviour of Python `str.replace`). -/
def replaceChars (pat rep : List Char) : List Char → List Char
  | [] => []
  | c :: rest =>
    if hpre : pat ≠ [] ∧ pat.isPrefixOf (c :: rest) then
      rep ++ replaceChars pat rep ((c :: rest).drop pat.length)
    else
      c :: replaceChars pat rep rest
termination_by l => l.length
decreasing_by
  all_goals simp_wf
  all_goals
    (have hp : 0 < pat.length := List.length_pos.mpr hpre.1
     simp [List.length_drop]
     omega)

/-- Python `s.replace(pat, rep)`. -/
def pyReplace (s pat rep : String) : String :=
  String.mk (replaceChars pat.toList rep.toList s.toList)

/-- `shlex.quote(s)`. -/
def shlexQuote (s : String) : String :=
  if s = "" then "\x27\x27"
  else if s.toList.all shlexSafeChar then s
  else "\x27" ++ pyReplace s "\x27" "\x27\"\x27\"\x27" ++ "\x27"

/-- `command_template.format(tomcat_home=home)` for the templates the tool
accepts (the only replacement field they use is `tomcat_home`). -/
def formatTomcatHome (template home : String) : String :=
  pyReplace template "{tomcat_home}" home

/-- Python `s.rstrip("/")`. -/
def pyRstripSlash (s : String) : String :=
  String.mk ((s.toList.reverse.dropWhile (fun c => c = '/')).reverse)

/-- The default Linux start script of `_start_linux` lines 184–195, built
over `root = tomcat_home.rstrip("/")` and `quoted_root = shlex.quote(root)`. -/
def defaultLinuxStartScript (root : String) : String :=
  "if [ ! -d " ++ shlexQuote root ++ " ]; then "
    ++ "echo \x27Tomcat directory not found: " ++ root ++ "\x27 >&2; exit 1; fi; "
    ++ "cd " ++ shlexQuote root ++ "/bin && "
    ++ "chmod +x startup.sh && "
    ++ "nohup ./startup.sh >/dev/null 2>&1 & "
    ++ "sleep 3; "
    ++ "if pgrep -f \x27catalina|tomcat\x27 >/dev/null; then "
    ++ "echo \x27Tomcat process started\x27; else echo \x27Warning: Tomcat process not detected yet\x27 >&2; fi"

/-- `isinstance(value, (int, float))` together with the float value (Python
bools are ints: `True` counts as 1, `False` as 0). -/
def pyNumVal : PyVal → Option Rat
  | .int n => some (n : Rat)
  | .float q => some q
  | .bool b => some (if b then 1 else 0)
  | _ => Option.none

/-- The candidate scan shared by `_resolve_timeout` and
`_resolve_ready_timeout` (lines 295–313): first numeric candidate that is
positive, else the 120.0 default. -/
def firstPositive : List PyVal → Rat
  | [] => 120
  | v :: rest =>
    match pyNumVal v with
    | some q => if q > 0 then q else firstPositive rest
    | Option.none => firstPositive rest

/-- `_resolve_timeout` (lines 295–303). -/
def resolve_timeout (osCfg cfg : Dict) : Rat :=
  firstPositive [getD osCfg "timeout", getD cfg "timeout"]

/-- `_resolve_ready_timeout` (lines 305–313). -/
def resolve_ready_timeout (osCfg cfg : Dict) : Rat :=
  firstPositive [getD osCfg "ready_timeout", getD cfg "ready_timeout"]

/-- Python `str.isdigit` restricted to ASCII digits. -/
def pyIsDigit (s : String) : Bool :=
  !s.isEmpty && s.toList.all Char.isDigit

/-- Value of `int(s)` for a string of ASCII digits. -/
def digitsToNat (l : List Char) : Nat :=
  l.foldl (fun acc c => acc * 10 + (c.toNat - 48)) 0

/-- The candidate scan of `_resolve_port` (lines 315–325): a positive int
wins, a digit string is parsed and returned unconditionally, else 8080. -/
def firstPort : List PyVal → Int
  | [] => 8080
  | v :: rest =>
    match v with
    | .int n => if n > 0 then n else firstPort rest
    | .bool b => if b then 1 else firstPort rest
    | .str s => if pyIsDigit s then (digitsToNat s.toList : Int) else firstPort rest
    | _ => firstPort rest

/-- `_resolve_port` (lines 315–325). -/
def resolve_port (osCfg cfg : Dict) : Int :=
  firstPort [getD osCfg "port", getD cfg "port"]

/-- `d.get(k)` when the tool reads a string-typed configuration entry
(`tomcat_home`, `start_command`); entries of any other type would make the
tool raise and are outside the modelled input space. -/
def getStr (d : Dict) (k : String) : Option String :=
  match lookupKey d k with
  | some (.str s) => some s
  | _ => Option.none

/-- Python `a or b` over optional strings (`None` and `""` are falsy). -/
def orStr : Option String → Option String → Option String
  | some s, b => if s ≠ "" then some s else b
  | Option.none, b => b

/-- The `os_cfg = config.get(os_type, {}) if isinstance(config.get(os_type),
dict) else {}` of line 43, for `os_type = "linux"`. -/
def linuxOsCfg (config : Dict) : Dict :=
  match lookupKey config "linux" with
  | some (.dict d) => d
  | _ => []

/-- The `home = tomcat_home or os_cfg.get("tomcat_home") or
config.get("tomcat_home")` chain of line 45. -/
def resolveHome (config osCfg : Dict) (tomcatHome : Option String) :
    Option String :=
  orStr tomcatHome (orStr (getStr osCfg "tomcat_home") (getStr config "tomcat_home"))

/-- `RemoteTomcatStartTool._failure` (lines 327–334). -/
def tomcatStartFailure (message : String) (logs : List String) : Dict :=
  [("name", .str "remote_tomcat_start"),
   ("status", .str "Failed"),
   ("command", .str "remote_tomcat_start"),
   ("output", .str (joinLines logs)),
   ("details", .str message)]

/-- `_wait_for_ready_linux` (lines 271–293): the remote poll script is run
with `timeout + 5`; a raised `TimeoutError` is caught and turned into
`("", str(exc), False)`, otherwise success is blank stderr
(`not stderr.strip()`). -/
def wait_for_ready_linux (outcome : ExecOutcome) : String × String × Bool :=
  match outcome with
  | .ok stdout stderr => (stdout, stderr, pyStrip stderr == "")
  | .timeout msg => ("", msg, false)

/-- `_start_linux` (lines 169–242).  `startOutcome` is the observed result
of `executor.run(command, timeout=exec_timeout)` and `readyOutcome` that of
the readiness-poll `executor.run`; an uncaught `TimeoutError` from the start
command propagates as `.error` carrying the message and the log list at the
raise point.  (The `details` assigned at lines 207–209 is dead: both return
paths overwrite it.) -/
def start_linux (tomcat_home : String) (commandTemplate : Option String)
    (port : Int) (logs : List String)
    (startOutcome readyOutcome : ExecOutcome) :
    Except (String × List String) Dict :=
  let command : String :=
    match commandTemplate with
    | Option.none =>
      "bash -lc " ++ shlexQuote (defaultLinuxStartScript (pyRstripSlash tomcat_home))
    | some t => formatTomcatHome t tomcat_home
  let logs := logs ++ [s!"Executing start command: {command}"]
  match startOutcome with
  | .timeout msg => .error (msg, logs)
  | .ok stdout stderr =>
    let logs := logs ++ (if pyStrip stdout ≠ "" then [pyStrip stdout] else [])
    let logs := logs ++
      (if pyStrip stderr ≠ "" then [s!"stderr: {pyStrip stderr}"] else [])
    let status := if pyStrip stderr = "" then "Success" else "Warning"
    let ready := wait_for_ready_linux readyOutcome
    let logs := logs ++ (if pyStrip ready.1 ≠ "" then [pyStrip ready.1] else [])
    let logs := logs ++
      (if pyStrip ready.2.1 ≠ "" then [s!"stderr: {pyStrip ready.2.1}"] else [])
    if !ready.2.2 then
      .ok [("name", .str "remote_tomcat_start"),
           ("status", .str "Failed"),
           ("command", .str command),
           ("output", .str (joinLines logs)),
           ("details", .str s!"Timed out waiting for Tomcat port {port}"),
           ("tomcat_home", .str tomcat_home)]
    else
      .ok [("name", .str "remote_tomcat_start"),
           ("status", .str (if status ≠ "Warning" then "Success" else status)),
           ("command", .str command),
           ("output", .str (joinLines logs)),
           ("details", .str s!"Tomcat started and port {port} is listening"),
           ("tomcat_home", .str tomcat_home)]

/-- Python `f"{x:.0f}"` on the resolved (positive) timeouts: rounded to an
integer (the half-to-even tie case never arises for the configured
values). -/
def fmtF0 (q : Rat) : String := toString (round q)

/-- `RemoteTomcatStartTool.run` (lines 30–87) on a host whose `detect_os()`
returns `"linux"` (the `os_type == "windows"` branch of line 56 is then not
taken): resolve the home directory, timeouts and port, delegate to
`_start_linux`, and catch a raised `TimeoutError` into a `_failure` result
(lines 82–84), so the method always returns a dict. -/
def tomcat_start_run_linux (config : Dict) (tomcatHome : Option String)
    (startOutcome readyOutcome : ExecOutcome) : Dict :=
  let logs := ["Detected OS: linux"]
  let osCfg := linuxOsCfg config
  match resolveHome config osCfg tomcatHome with
  | Option.none => tomcatStartFailure "Tomcat home directory not supplied" logs
  | some home =>
    if home = "" then tomcatStartFailure "Tomcat home directory not supplied" logs
    else
      let execTimeout := resolve_timeout osCfg config
      let readyTimeout := resolve_ready_timeout osCfg config
      let port := resolve_port osCfg config
      let logs := logs ++
        [s!"Command timeout set to {fmtF0 execTimeout}s",
         s!"Readiness timeout set to {fmtF0 readyTimeout}s",
         s!"Target port: {port}"]
      match start_linux home (orStr (getStr osCfg "start_command")
          (getStr config "start_command")) port logs startOutcome readyOutcome with
      | .ok d => d
      | .error e => tomcatStartFailure e.1 (e.2 ++ [e.1])

/-! ## `Remote/post_install/tomcat_validation.py` — `RemoteTomcatValidationTool` -/

/-- One attempt of the polling loop of `run` (lines 66–76): an HTTP response
with its status code and reason phrase, or a raised
`requests.RequestException` rendered by `str(exc)`. -/
inductive HttpAttempt where
  | response (code : Int) (reason : String)
  | exc (msg : String)
deriving DecidableEq

/-- `response.ok` in the requests library: status code below 400. -/
def respOk (code : Int) : Bool := code < 400

/-- The `while time.time() < deadline:` loop of lines 66–78.  `attempts` are
the outcomes of the successive `requests.get` calls occurring before the
deadline; exhausting the list is the deadline expiring, which runs the
`else:` arm of the `while`.  Accumulates `(status_code, last_error)` and
returns them with the log lines the loop epilogue appends. -/
def validationLoop : List HttpAttempt → Option Int → Option String →
    Option Int × Option String × List String
  | [], sc, le => (sc, le, ["Timed out waiting for HTTP response"])
  | a :: rest, sc, le =>
    match a with
    | .response code reason =>
      if respOk code then (some code, le, [s!"Received HTTP {code}"])
      else validationLoop rest (some code) (some s!"HTTP {code} {reason}")
    | .exc msg => validationLoop rest sc (some msg)

/-- Status codes of all responses received among the attempts (exceptions
carry none). -/
def receivedCodes (attempts : List HttpAttempt) : List Int :=
  attempts.filterMap (fun a => match a with
    | .response code _ => some code
    | .exc _ => Option.none)

/-- The codes the loop actually observes: every received status code up to
and including the first one below 400, at which the loop breaks. -/
def observedCodes : List HttpAttempt → List Int
  | [] => []
  | .exc _ :: rest => observedCodes rest
  | .response code _ :: rest =>
    if respOk code then [code] else code :: observedCodes rest

/-- `RemoteTomcatValidationTool.run` (lines 44–103).  `waitSeconds` and
`port` are the `int(...)`-converted config values, `httpHost` the result of
`host_template.format(**server)`, and `attempts` the observed HTTP
environment.  The defensive `except` of line 101 never fires in this
modelled input space, so `run` is the `try` body. -/
def tomcat_validation_run (waitSeconds : Int) (httpHost : String) (port : Int)
    (attempts : List HttpAttempt) (tomcatHome : Option String) : Dict :=
  let url := s!"http://{httpHost}:{port}"
  let logs := [s!"Waiting up to {waitSeconds}s for HTTP {url}"]
  let r := validationLoop attempts Option.none Option.none
  let logs := logs ++ r.2.2
  let running := match r.1 with
    | some code => decide (200 ≤ code) && decide (code < 500)
    | Option.none => false
  let lastErr := match r.2.1 with
    | some s => if s ≠ "" then s else "unknown error"
    | Option.none => "unknown error"
  let details :=
    match r.1 with
    | some code =>
      if 200 ≤ code ∧ code < 500 then
        s!"Tomcat responded at {url} with HTTP {code}"
      else s!"Tomcat did not respond at {url}: {lastErr}"
    | Option.none => s!"Tomcat did not respond at {url}: {lastErr}"
  let payload : Dict :=
    [("name", .str "remote_tomcat_validation"),
     ("status", .str (if running then "Success" else "Failed")),
     ("command", .str s!"Validate Tomcat at {url}"),
     ("output", .str (joinLines (logs.filter (fun l => l ≠ "")))),
     ("details", .str details),
     ("url", .str url),
     ("status_code", match r.1 with | some c => .int c | Option.none => .none)]
  match tomcatHome with
  | some h => if h ≠ "" then payload ++ [("tomcat_home", .str h)] else payload
  | Option.none => payload

/-! ## `Remote/tool_base.py` — `RemoteTool` and the result contract -/

/-- State of a `RemoteTool` after `__init__` (lines 10–20); the constructor
stores `user_parameters or {}`, which equals the passed dict when present
(an empty dict is its own `or {}`) and `{}` for `None`. -/
structure RemoteToolState where
  name : String
  description : String
  parameters : Dict
  user_parameters : Dict

/-- `RemoteTool.__init__` (lines 10–20). -/
def RemoteTool.init (name description : String) (parameters : Dict)
    (user_parameters : Option Dict) : RemoteToolState :=
  ⟨name, description, parameters,
    match user_parameters with
    | some d => d
    | Option.none => []⟩

/-- `RemoteTool.get_info` (lines 22–27): `self.user_parameters or
self.parameters` picks the user parameters when non-empty. -/
def get_info (t : RemoteToolState) : Dict :=
  [("toolName", .str t.name),
   ("description", .str t.description),
   ("parameters", .dict (if !t.user_parameters.isEmpty then t.user_parameters
      else t.parameters))]

/-- `RemoteJavaInstallTool.run` line 212, reached when `detect_os()` is
neither `"linux"` nor `"windows"`:
`{"name": self.name, "status": "Failed", "details": "Unknown OS"}`. -/
def javaUnknownOsResult : Dict :=
  [("name", .str "remote_java_install"),
   ("status", .str "Failed"),
   ("details", .str "Unknown OS")]

/-- The uniform result contract the spec asserts for every tool result:
the four keys are present and the status comes from the fixed
vocabulary. -/
def resultContract (d : Dict) : Prop :=
  hasKey d "name" = true ∧ hasKey d "status" = true ∧
  hasKey d "output" = true ∧ hasKey d "details" = true ∧
  (statusOf d = some "Success" ∨ statusOf d = some "Warning" ∨
   statusOf d = some "Failed" ∨ statusOf d = some "Skipped")

/-! ## `Remote/run_remote_workflow.py` — `RemoteWorkflowRunner.run_for_server`
(lines 24–108) -/

/-- The five tool invocations the runner can make, in program order. -/
inductive Stage where
  | java | installTomcat | start | validation | stop
deriving DecidableEq

/-- The settings consulted by `run_for_server`: each `Option Dict` is the
corresponding `settings` lookup (`none` when the key chain is absent or the
value falsy, the condition under which the `if cfg:` guards skip the
stage); `defaultHome` is `post_cfg.get("default_tomcat_home")` when
`post_cfg` is a dict, else `None` (line 68). -/
structure Settings where
  javaCfg : Option Dict
  installCfg : Option Dict
  startCfg : Option Dict
  validationCfg : Option Dict
  stopCfg : Option Dict
  defaultHome : PyVal

/-- Observed results of the five tool `run` calls (consulted only for the
stages actually invoked). -/
structure ToolRuns where
  java : Dict
  install : Dict
  start : Dict
  validation : Dict
  stop : Dict

/-- Observed outcome of `executor.connect()` (lines 35–42). -/
inductive ConnectOutcome where
  | connected
  | failed (excMsg : String)

/-- `(cfg or {}).get(k)` for an optional config section. -/
def cfgGet (c : Option Dict) (k : String) : PyVal :=
  match c with
  | some d => getD d k
  | Option.none => PyVal.none

/-- The `effective_home` chain of lines 69–75. -/
def effectiveHome (s : Settings) (tomcatHome : PyVal) : PyVal :=
  pyOr tomcatHome (pyOr s.defaultHome (pyOr (cfgGet s.startCfg "tomcat_home")
    (pyOr (cfgGet s.validationCfg "tomcat_home") (cfgGet s.stopCfg "tomcat_home"))))

/-- Post-install phase (lines 62–106): the result entries appended and the
tools invoked, in order.  Validation is skipped (with a `Skipped` entry but
no tool call) when no effective home is available. -/
def postPhase (s : Settings) (tools : ToolRuns) (tomcatHome : PyVal) :
    Dict × List Stage :=
  let home := effectiveHome s tomcatHome
  let startPart : Dict × List Stage :=
    match s.startCfg with
    | some _ => ([("post_install_tomcat_start", .dict tools.start)], [Stage.start])
    | Option.none => ([], [])
  let valPart : Dict × List Stage :=
    match s.validationCfg with
    | some _ =>
      if pyTruthy home then
        ([("post_install_tomcat_validation", .dict tools.validation)],
         [Stage.validation])
      else
        ([("post_install_tomcat_validation",
            .dict [("status", .str "Skipped"),
                   ("details", .str "Tomcat home not available for validation")])],
         [])
    | Option.none => ([], [])
  let stopPart : Dict × List Stage :=
    match s.stopCfg with
    | some _ => ([("post_install_tomcat_stop", .dict tools.stop)], [Stage.stop])
    | Option.none => ([], [])
  (startPart.1 ++ valPart.1 ++ stopPart.1,
   startPart.2 ++ valPart.2 ++ stopPart.2)

/-- Install stage with its early return (lines 52–60), then the post-install
phase; `tomcat_home` is `None` unless a successful install supplied one. -/
def installPhase (s : Settings) (tools : ToolRuns) : Dict × List Stage :=
  match s.installCfg with
  | some _ =>
    if statusOf tools.install = some "Success" then
      (("install_tomcat", .dict tools.install) ::
          (postPhase s tools (getD tools.install "tomcat_home")).1,
       Stage.installTomcat ::
          (postPhase s tools (getD tools.install "tomcat_home")).2)
    else ([("install_tomcat", .dict tools.install)], [Stage.installTomcat])
  | Option.none => postPhase s tools PyVal.none

/-- `run_for_server` (lines 24–108): the accumulated results dict (starting
from the `server` entry) and the ordered list of tools invoked.  `conn` is
the observed outcome of `executor.connect()`, `serverName` the value of
`server.get("name", server.get("host"))`. -/
def run_for_server (s : Settings) (conn : ConnectOutcome) (tools : ToolRuns)
    (serverName : PyVal) : Dict × List Stage :=
  match conn with
  | .failed msg =>
    ([("server", serverName),
      ("connection", .dict [("status", .str "Failed"),
        ("details", .str s!"Unable to connect: {msg}")])], [])
  | .connected =>
    match s.javaCfg with
    | some _ =>
      if statusOf tools.java = some "Success" then
        (("server", serverName) :: ("pre_install_java", .dict tools.java) ::
            (installPhase s tools).1,
         Stage.java :: (installPhase s tools).2)
      else ([("server", serverName), ("pre_install_java", .dict tools.java)],
        [Stage.java])
    | Option.none =>
      (("server", serverName) :: (installPhase s tools).1,
       (installPhase s tools).2)

/-- Whether a stage's configuration section is present (truthy). -/
def stageCfgPresent (s : Settings) : Stage → Bool
  | .java => s.javaCfg.isSome
  | .installTomcat => s.installCfg.isSome
  | .start => s.startCfg.isSome
  | .validation => s.validationCfg.isSome
  | .stop => s.stopCfg.isSome

/-! ## Theorems -/

theorem runLoop_not_timedOut (tmo : Option Rat) (chEnd : ChannelEnd)
    (decode : List Nat → String) (hto : timeoutActive tmo = false) :
    ∀ (steps : List PollStep) (accOut accErr : List (List Nat)) (m : String),
      runLoop tmo chEnd decode steps accOut accErr ≠ .timedOut m := by
  intro steps
  induction steps with
  | nil => intro accOut accErr m h; simp [runLoop] at h
  | cons s rest ih =>
    intro accOut accErr m h
    have hd : deadlineExceeded tmo s = false := by
      simp [deadlineExceeded, hto]
    by_cases hs : s.exitReady
    · simp [runLoop, hs, finishRun] at h
    · simp only [runLoop, hs, hd, if_false, Bool.false_eq_true] at h
      exact ih _ _ m h

theorem runLoop_looping (tmo : Option Rat) (chEnd : ChannelEnd)
    (decode : List Nat → String) (hto : timeoutActive tmo = false) :
    ∀ (steps : List PollStep), (∀ s ∈ steps, s.exitReady = false) →
      ∀ (accOut accErr : List (List Nat)),
        runLoop tmo chEnd decode steps accOut accErr = .looping := by
  intro steps
  induction steps with
  | nil => intro _ accOut accErr; simp [runLoop]
  | cons s rest ih =>
    intro hnr accOut accErr
    have hs : s.exitReady = false := hnr s (by simp)
    have hd : deadlineExceeded tmo s = false := by
      simp [deadlineExceeded, hto]
    simp only [runLoop, hs, hd, if_false, Bool.false_eq_true]
    exact ih (fun p hp => hnr p (by simp [hp])) _ _

theorem runLoop_timedOut (t : Rat) (ht : 0 < t) (chEnd : ChannelEnd)
    (decode : List Nat → String) :
    ∀ (steps : List PollStep), (∀ s ∈ steps, s.exitReady = false) →
      (∃ s ∈ steps, t < s.elapsed) →
      ∀ (accOut accErr : List (List Nat)),
        runLoop (some t) chEnd decode steps accOut accErr =
          .timedOut (timeoutMsg (some t)) := by
  intro steps
  induction steps with
  | nil => intro _ hex; simp at hex
  | cons s rest ih =>
    intro hnr hex accOut accErr
    have hs : s.exitReady = false := hnr s (by simp)
    by_cases hd : t < s.elapsed
    · have hdl : deadlineExceeded (some t) s = true := by
        simp [deadlineExceeded, timeoutActive, ht, ht.ne', hd]
      simp [runLoop, hs, hdl]
    · have hdl : deadlineExceeded (some t) s = false := by
        simp [deadlineExceeded, timeoutActive, hd]
      simp only [runLoop, hs, hdl, if_false, Bool.false_eq_true]
      have hex2 : ∃ p ∈ rest, t < p.elapsed := by
        rcases hex with ⟨p, hp, hpt⟩
        rcases List.mem_cons.mp hp with h | h
        · exact absurd (h ▸ hpt) hd
        · exact ⟨p, h, hpt⟩
      exact ih (fun p hp => hnr p (by simp [hp])) hex2 _ _

theorem runLoop_first_ready (tmo : Option Rat) (chEnd : ChannelEnd)
    (decode : List Nat → String) :
    ∀ (pre : List PollStep) (s : PollStep) (rest : List PollStep)
      (accOut accErr : List (List Nat)),
      (∀ p ∈ pre, p.exitReady = false) →
      (∀ p ∈ pre, deadlineExceeded tmo p = false) →
      s.exitReady = true →
      runLoop tmo chEnd decode (pre ++ s :: rest) accOut accErr =
        finishRun chEnd decode (accOut ++ drainedOut (pre ++ [s]))
          (accErr ++ drainedErr (pre ++ [s])) := by
  intro pre
  induction pre with
  | nil =>
    intro s rest accOut accErr _ _ hs
    simp [runLoop, hs, drainedOut, drainedErr]
  | cons p pre ih =>
    intro s rest accOut accErr hpre hnt hs
    have hp : p.exitReady = false := hpre p (by simp)
    have hd : deadlineExceeded tmo p = false := hnt p (by simp)
    simp only [List.cons_append, runLoop, hp, hd, if_false, Bool.false_eq_true,
      List.append_eq]
    rw [ih s rest _ _ (fun q hq => hpre q (by simp [hq]))
      (fun q hq => hnt q (by simp [hq])) hs]
    simp [drainedOut, drainedErr, List.append_assoc]

/-- **C1.** `RemoteExecutor.run` with a positive timeout `t` polls the channel
in a loop; if the exit status never becomes ready and the observed elapsed
wall-clock time exceeds `t` at some iteration, the call raises
`TimeoutError`; with `timeout=None` or `timeout=0` no deadline is enforced:
a `TimeoutError` is never raised, and while the exit status is not ready the
loop keeps waiting. -/
theorem claim_C1_run_timeout (t : Rat) (steps : List PollStep)
    (chEnd : ChannelEnd) (decode : List Nat → String) :
    (0 < t → (∀ s ∈ steps, s.exitReady = false) → (∃ s ∈ steps, t < s.elapsed) →
      executorRun (some t) steps chEnd decode =
        .timedOut s!"Remote command timed out after {t} seconds")
    ∧ (∀ tmo : Option Rat, tmo = Option.none ∨ tmo = some 0 →
        (∀ m, executorRun tmo steps chEnd decode ≠ .timedOut m)
        ∧ ((∀ s ∈ steps, s.exitReady = false) →
            executorRun tmo steps chEnd decode = .looping)) := by
  constructor
  · intro ht hnr hex
    exact runLoop_timedOut t ht chEnd decode steps hnr hex [] []
  · intro tmo htmo
    have hto : timeoutActive tmo = false := by
      rcases htmo with h | h <;> subst h <;> simp [timeoutActive]
    exact ⟨fun m => runLoop_not_timedOut tmo chEnd decode hto steps [] [] m,
      fun hnr => runLoop_looping tmo chEnd decode hto steps hnr [] []⟩

/-- Witness for C1 at a concrete trace: timeout 1, one iteration with exit
status not ready and elapsed time 2 raises; with `timeout=None` the same
trace never raises and keeps looping. -/
theorem claim_C1_run_timeout_witness :
    executorRun (some 1) [⟨[], [], false, 2⟩] ⟨0, [], []⟩ (fun _ => "") =
        .timedOut s!"Remote command timed out after {(1 : Rat)} seconds"
    ∧ (∀ m, executorRun Option.none [⟨[], [], false, 2⟩] ⟨0, [], []⟩
        (fun _ => "") ≠ .timedOut m)
    ∧ executorRun Option.none [⟨[], [], false, 2⟩] ⟨0, [], []⟩
        (fun _ => "") = .looping := by
  refine ⟨?_, ?_, ?_⟩
  · exact (claim_C1_run_timeout 1 [⟨[], [], false, 2⟩] ⟨0, [], []⟩ (fun _ => "")).1
      (by norm_num) (by simp) ⟨⟨[], [], false, 2⟩, by simp, by norm_num⟩
  · exact fun m =>
      ((claim_C1_run_timeout 1 [⟨[], [], false, 2⟩] ⟨0, [], []⟩
        (fun _ => "")).2 Option.none (Or.inl rfl)).1 m
  · exact ((claim_C1_run_timeout 1 [⟨[], [], false, 2⟩] ⟨0, [], []⟩
      (fun _ => "")).2 Option.none (Or.inl rfl)).2 (by simp)

/-- **C2 (counterexample).** The claim says a completed command returns
exactly the decoded concatenations of the drained streams "and nothing
else".  On a command that exits with status 1 having produced no stderr
chunks, the decoded concatenation of the stderr chunks is `""` but
`RemoteExecutor.run` returns the synthetic string
`"Command exited with status 1"` instead (lines 65–66). -/
theorem claim_C2_counterexample :
    executorRun Option.none [⟨[], [], true, 0⟩] ⟨1, [], []⟩ (fun _ => "") ≠
      .ok "" "" ∧
    executorRun Option.none [⟨[], [], true, 0⟩] ⟨1, [], []⟩ (fun _ => "") =
      .ok "" "Command exited with status 1" := by
  constructor
  · decide
  · decide

/-- **C2 (amended).** For every command that completes (exit status becomes
ready at some iteration, with no earlier iteration raising the deadline),
`RemoteExecutor.run` returns the decoded concatenation, in arrival order, of
the stdout chunks drained up to and including the completing iteration plus
the post-loop drain, and likewise for stderr — except that when the exit
status is nonzero and the decoded stderr concatenation is empty, the stderr
component is replaced by `"Command exited with status {n}"`. -/
theorem claim_C2_run_streams (tmo : Option Rat) (pre rest : List PollStep)
    (s : PollStep) (chEnd : ChannelEnd) (decode : List Nat → String)
    (hpre : ∀ p ∈ pre, p.exitReady = false)
    (hnt : ∀ p ∈ pre, deadlineExceeded tmo p = false)
    (hs : s.exitReady = true) :
    executorRun tmo (pre ++ s :: rest) chEnd decode =
      .ok (decode (drainedOut (pre ++ [s]) ++ chEnd.finalStdout).flatten)
        (stderrFallback chEnd.exitStatus
          (decode (drainedErr (pre ++ [s]) ++ chEnd.finalStderr).flatten)) := by
  have h := runLoop_first_ready tmo chEnd decode pre s rest [] [] hpre hnt hs
  simpa [executorRun, finishRun] using h

/-- Witness for the amended C2 at a concrete trace: one iteration draining a
single stdout chunk, exit status 0, constant decoder. -/
theorem claim_C2_run_streams_witness :
    executorRun Option.none [⟨[[104]], [], true, 0⟩] ⟨0, [], []⟩ (fun _ => "x") =
      .ok "x" "x" := by
  have h := claim_C2_run_streams Option.none [] [] ⟨[[104]], [], true, 0⟩
    ⟨0, [], []⟩ (fun _ => "x") (by simp) (by simp) rfl
  simpa [drainedOut, drainedErr, stderrFallback] using h

/-- **C5.** `RemoteExecutor.detect_os` always returns one of `"linux"`,
`"windows"`, `"unknown"`, by the stated order of string-matching checks:
`"Linux"` occurring in the `uname` output, then non-blank PowerShell
OS-caption output, then the fallback. -/
theorem claim_C5_detect_os (unameOut psOut : String) :
    (detect_os unameOut psOut = "linux" ∨ detect_os unameOut psOut = "windows"
      ∨ detect_os unameOut psOut = "unknown")
    ∧ (strContains unameOut "Linux" = true → detect_os unameOut psOut = "linux")
    ∧ (strContains unameOut "Linux" = false → pyStrip psOut ≠ "" →
        detect_os unameOut psOut = "windows")
    ∧ (strContains unameOut "Linux" = false → pyStrip psOut = "" →
        detect_os unameOut psOut = "unknown") := by
  unfold detect_os
  by_cases h1 : strContains unameOut "Linux" <;>
    by_cases h2 : pyStrip psOut = "" <;> simp [h1, h2]

/-- Witness for C5 on concrete outputs for all three branches. -/
theorem claim_C5_detect_os_witness :
    detect_os "Linux myhost 5.15" "" = "linux"
    ∧ detect_os "ksh: uname: not found" " Microsoft Windows 11 " = "windows"
    ∧ detect_os "ksh: uname: not found" "  " = "unknown" := by
  refine ⟨?_, ?_, ?_⟩
  · exact (claim_C5_detect_os "Linux myhost 5.15" "").2.1 (by decide)
  · exact (claim_C5_detect_os "ksh: uname: not found"
      " Microsoft Windows 11 ").2.2.1 (by decide) (by decide)
  · exact (claim_C5_detect_os "ksh: uname: not found" "  ").2.2.2
      (by decide) (by decide)

theorem lookupKey_setKey_self (d : Dict) (k : String) (v : PyVal) :
    lookupKey (setKey d k v) k = some v := by
  induction d with
  | nil => simp [setKey, lookupKey]
  | cons e rest ih =>
    obtain ⟨kk, vv⟩ := e
    by_cases h : kk = k
    · simp [setKey, h, lookupKey]
    · simp [setKey, h, lookupKey, ih]

theorem lookupKey_setKey_other (d : Dict) (k k2 : String) (v : PyVal)
    (h : k2 ≠ k) :
    lookupKey (setKey d k v) k2 = lookupKey d k2 := by
  induction d with
  | nil => simp [setKey, lookupKey, Ne.symm h]
  | cons e rest ih =>
    obtain ⟨kk, vv⟩ := e
    by_cases hk : kk = k
    · subst hk
      simp [setKey, lookupKey, Ne.symm h]
    · simp [setKey, hk, lookupKey, ih]

theorem lookupKey_eq_none (d : Dict) (k : String) (h : k ∉ d.map Prod.fst) :
    lookupKey d k = Option.none := by
  induction d with
  | nil => rfl
  | cons e rest ih =>
    obtain ⟨kk, vv⟩ := e
    simp only [List.map_cons, List.mem_cons] at h
    push_neg at h
    simp [lookupKey, Ne.symm h.1, ih h.2]

theorem lookupKey_cons_ne (k0 : String) (v0 : PyVal) (rest : Dict) (k : String)
    (h : k0 ≠ k) : lookupKey ((k0, v0) :: rest) k = lookupKey rest k := by
  simp [lookupKey, h]

theorem deep_merge_nil (base : Dict) : deep_merge base [] = base := by
  rw [deep_merge]

theorem deep_merge_cons (base : Dict) (k : String) (v : PyVal) (rest : Dict) :
    deep_merge base ((k, v) :: rest) = deep_merge (mergeEntry base k v) rest := by
  rw [deep_merge]

theorem mergeEntry_eq_setKey (base : Dict) (k : String) (v : PyVal) :
    ∃ x, mergeEntry base k v = setKey base k x := by
  rw [mergeEntry.eq_def]
  cases hb0 : lookupKey base k with
  | none => cases v <;> exact ⟨_, rfl⟩
  | some w => cases w <;> cases v <;> exact ⟨_, rfl⟩

theorem lookup_deep_merge (ov : Dict) (hnd : (ov.map Prod.fst).Nodup)
    (base : Dict) (k : String) :
    lookupKey (deep_merge base ov) k = mergedLookup base ov k := by
  induction ov generalizing base with
  | nil =>
    rw [deep_merge_nil]
    cases hb : lookupKey base k <;> simp [mergedLookup, lookupKey, hb]
  | cons e rest ih =>
    obtain ⟨k0, v0⟩ := e
    rw [List.map_cons, List.nodup_cons] at hnd
    rw [deep_merge_cons]
    by_cases hkk : k0 = k
    · subst hkk
      have hrest : lookupKey rest k0 = Option.none :=
        lookupKey_eq_none rest k0 hnd.1
      rw [ih hnd.2 _]
      cases hb : lookupKey base k0 with
      | none =>
        cases v0 <;>
          simp [mergedLookup, mergeEntry, hb, hrest, lookupKey,
            lookupKey_setKey_self]
      | some w =>
        cases w <;> cases v0 <;>
          simp [mergedLookup, mergeEntry, hb, hrest, lookupKey,
            lookupKey_setKey_self]
    · rcases mergeEntry_eq_setKey base k0 v0 with ⟨x, hx⟩
      rw [hx, ih hnd.2 _]
      have hb2 : lookupKey (setKey base k0 x) k = lookupKey base k :=
        lookupKey_setKey_other base k0 k x (Ne.symm hkk)
      unfold mergedLookup
      rw [hb2, lookupKey_cons_ne k0 v0 rest k hkk]

/-- **C9.** `merge_dict` with an empty override sequence and `_deep_merge`
with an empty override dict both return the base unchanged, and for every
key the merged dict satisfies: when both sides map the key to dicts the
values are merged recursively, otherwise the override value replaces the
base value (keys untouched by the overrides keep their base value).  The
functions are modelled as pure maps on copies, matching the `copy()` calls
of the source, so the inputs are never mutated. -/
theorem claim_C9_merge_dict (base ov : Dict) (k : String)
    (hnd : (ov.map Prod.fst).Nodup) :
    merge_dict base [] = base
    ∧ deep_merge base [] = base
    ∧ lookupKey (deep_merge base ov) k = mergedLookup base ov k :=
  ⟨rfl, deep_merge_nil base, lookup_deep_merge ov hnd base k⟩

/-- Witness for C9: a one-key base whose value is overridden, and the
nested-dict case merged recursively. -/
theorem claim_C9_merge_dict_witness :
    merge_dict [("a", PyVal.int 1)] [] = [("a", PyVal.int 1)]
    ∧ deep_merge [("a", PyVal.int 1)] [] = [("a", PyVal.int 1)]
    ∧ lookupKey (deep_merge [("a", PyVal.int 1)] [("a", PyVal.int 2)]) "a" =
        some (PyVal.int 2)
    ∧ lookupKey
        (deep_merge [("a", PyVal.dict [("x", PyVal.int 1)])]
          [("a", PyVal.dict [("y", PyVal.int 2)])]) "a" =
        some (PyVal.dict (deep_merge [("x", PyVal.int 1)] [("y", PyVal.int 2)])) := by
  have h1 := claim_C9_merge_dict [("a", PyVal.int 1)] [("a", PyVal.int 2)] "a"
    (by simp)
  have h2 := claim_C9_merge_dict [("a", PyVal.dict [("x", PyVal.int 1)])]
    [("a", PyVal.dict [("y", PyVal.int 2)])] "a" (by simp)
  refine ⟨h1.1, h1.2.1, ?_, ?_⟩
  · exact (h1.2.2).trans (by simp [mergedLookup, lookupKey])
  · exact (h2.2.2).trans (by simp [mergedLookup, lookupKey])

theorem pySortedSet_sorted_lt (l : List Int) :
    List.Sorted (· < ·) (pySortedSet l) := by
  have hnd : (pySortedSet l).Nodup :=
    ((List.perm_insertionSort (· ≤ ·) l.dedup).nodup_iff).mpr (List.nodup_dedup l)
  exact List.Sorted.lt_of_le (List.sorted_insertionSort (· ≤ ·) l.dedup) hnd

theorem pySortedSet_perm (l : List Int) : (pySortedSet l).Perm l.dedup :=
  List.perm_insertionSort (· ≤ ·) l.dedup

theorem pySortedSet_of_sorted (l : List Int) (hs : List.Sorted (· < ·) l) :
    pySortedSet l = l := by
  unfold pySortedSet
  rw [List.dedup_eq_self.mpr hs.nodup]
  exact List.Sorted.insertionSort_eq hs.le_of_lt

theorem pySortedSet_congr_perm (l l2 : List Int) (h : l.Perm l2) :
    pySortedSet l = pySortedSet l2 := by
  refine List.eq_of_perm_of_sorted ?_ (List.sorted_insertionSort (· ≤ ·) l.dedup)
    (List.sorted_insertionSort (· ≤ ·) l2.dedup)
  exact (pySortedSet_perm l).trans (h.dedup.trans (pySortedSet_perm l2).symm)

/-- **C10.** `_normalize_ports` returns a strictly increasing list of
distinct integers; an entry belongs to the output exactly when some input
entry converts to it (entries whose conversion fails are dropped); the
output is invariant under permutation of the input and the function is
idempotent; and when the normalized list is empty `run` returns the
`Failed` result with details `"No valid ports supplied for inspection"`. -/
theorem claim_C10_normalize_ports (ports ports2 : List PortItem)
    (hperm : ports.Perm ports2) (osType : String) (cfgPorts : List PortItem)
    (checkResult : Dict) :
    List.Sorted (· < ·) (normalize_ports ports)
    ∧ (∀ c : Int, c ∈ normalize_ports ports ↔ some c ∈ ports)
    ∧ normalize_ports ports = normalize_ports ports2
    ∧ normalize_ports ((normalize_ports ports).map some) = normalize_ports ports
    ∧ (normalize_ports ports = [] →
        portCheck_run osType (some ports) cfgPorts checkResult =
          portCheckFailure "No valid ports supplied for inspection"
            [s!"Detected OS: {osType}"]) := by
  refine ⟨?_, ?_, ?_, ?_, ?_⟩
  · exact pySortedSet_sorted_lt _
  · intro c
    have := (pySortedSet_perm (ports.filterMap id)).mem_iff (a := c)
    unfold normalize_ports
    rw [this, List.mem_dedup, List.mem_filterMap]
    simp
  · exact pySortedSet_congr_perm _ _ (hperm.filterMap id)
  · have hfm : ((normalize_ports ports).map some).filterMap id =
        normalize_ports ports := by
      simp [List.filterMap_map]
    unfold normalize_ports
    unfold normalize_ports at hfm
    rw [hfm]
    exact pySortedSet_of_sorted _ (pySortedSet_sorted_lt _)
  · intro hempty
    simp [portCheck_run, hempty]

/-- Witness for C10: `["8080", "abc"]`-style input (entries abstracted by
their conversion outcomes), its reversal, and an all-invalid input for the
`Failed` branch of `run`. -/
theorem claim_C10_normalize_ports_witness :
    List.Sorted (· < ·) (normalize_ports [some 8080, Option.none])
    ∧ ((8080 : Int) ∈ normalize_ports [some 8080, Option.none] ↔
        some (8080 : Int) ∈ [some (8080 : Int), Option.none])
    ∧ normalize_ports [some 8080, Option.none] =
        normalize_ports [Option.none, some 8080]
    ∧ normalize_ports ((normalize_ports [some 8080, Option.none]).map some) =
        normalize_ports [some 8080, Option.none]
    ∧ portCheck_run "linux" (some [Option.none]) [] [] =
        portCheckFailure "No valid ports supplied for inspection"
          ["Detected OS: linux"] := by
  have h1 := claim_C10_normalize_ports [some 8080, Option.none]
    [Option.none, some 8080] (by decide) "linux" [] []
  have h2 := claim_C10_normalize_ports [Option.none] [Option.none]
    (List.Perm.refl _) "linux" [] []
  exact ⟨h1.1, h1.2.1 8080, h1.2.2.1, h1.2.2.2.1, h2.2.2.2.2 (by decide)⟩

theorem iniLoop_no_fnf (defaults : List (String × String)) :
    ∀ (secs : List (String × List (String × String))) (m : String),
      iniLoop defaults secs ≠ .error (.fileNotFound m) := by
  intro secs
  induction secs with
  | nil => intro m h; simp [iniLoop] at h
  | cons e rest ih =>
    obtain ⟨sec, items⟩ := e
    intro m h
    by_cases hd : pyLower sec = "defaults"
    · rw [iniLoop, if_pos hd] at h
      exact ih m h
    · rw [iniLoop, if_neg hd] at h
      by_cases hm : (missingFields (mergeSection defaults sec items)).isEmpty
      · rw [if_pos hm] at h
        cases hrec : iniLoop defaults rest with
        | ok rs => rw [hrec] at h; simp at h
        | error err =>
          rw [hrec] at h
          simp only [Except.error.injEq] at h
          exact ih m (by rw [hrec, h])
      · rw [if_neg hm] at h
        simp at h

theorem iniLoop_ok (defaults : List (String × String)) :
    ∀ secs : List (String × List (String × String)),
      (∀ e ∈ secs, pyLower e.1 ≠ "defaults" →
        (missingFields (mergeSection defaults e.1 e.2)).isEmpty = true) →
      iniLoop defaults secs =
        .ok ((secs.filter (fun e => !(pyLower e.1 == "defaults"))).map
          (fun e => mergeSection defaults e.1 e.2)) := by
  intro secs
  induction secs with
  | nil => intro _; simp [iniLoop]
  | cons e rest ih =>
    obtain ⟨sec, items⟩ := e
    intro hall
    by_cases hd : pyLower sec = "defaults"
    · rw [iniLoop, if_pos hd, ih (fun f hf => hall f (by simp [hf]))]
      simp [hd]
    · have hm : (missingFields (mergeSection defaults sec items)).isEmpty = true :=
        hall (sec, items) (by simp) hd
      rw [iniLoop, if_neg hd, if_pos hm, ih (fun f hf => hall f (by simp [hf]))]
      simp [hd]

theorem iniLoop_valueError (defaults : List (String × String)) :
    ∀ secs : List (String × List (String × String)),
      (∃ e ∈ secs, pyLower e.1 ≠ "defaults" ∧
        (missingFields (mergeSection defaults e.1 e.2)).isEmpty = false) →
      ∃ m, iniLoop defaults secs = .error (.valueError m) := by
  intro secs
  induction secs with
  | nil => rintro ⟨f, hf, _⟩; simp at hf
  | cons e rest ih =>
    obtain ⟨sec, items⟩ := e
    rintro ⟨f, hf, h1, h2⟩
    rcases List.mem_cons.mp hf with hh | hh
    · subst hh
      have hd : ¬ pyLower sec = "defaults" := by simpa using h1
      refine ⟨s!"Section \x27{sec}\x27 missing required fields: "
        ++ joinComma (missingFields (mergeSection defaults sec items)), ?_⟩
      rw [iniLoop, if_neg hd, if_neg (by simp [h2])]
    · rcases ih ⟨f, hh, h1, h2⟩ with ⟨m, hm⟩
      by_cases hd : pyLower sec = "defaults"
      · exact ⟨m, by rw [iniLoop, if_pos hd]; exact hm⟩
      · by_cases hmm : (missingFields (mergeSection defaults sec items)).isEmpty
        · exact ⟨m, by rw [iniLoop, if_neg hd, if_pos hmm, hm]⟩
        · exact ⟨s!"Section \x27{sec}\x27 missing required fields: "
            ++ joinComma (missingFields (mergeSection defaults sec items)),
            by rw [iniLoop, if_neg hd, if_neg hmm]⟩

/-- **C6.** `load_server_ini` raises `FileNotFoundError` exactly when the
path is not an existing file; given an existing file it raises `ValueError`
exactly when some non-`defaults` section, after overlaying its items on the
`defaults` section's items, lacks a non-empty `host` or `username`; and
otherwise it returns one record per non-`defaults` section, each the
defaults copied, overlaid with the section's own pairs, with `name` set to
the section name when absent. -/
theorem claim_C6_load_server_ini (path : String) (ini : IniData) :
    ((ini.isFile = false) ↔ load_server_ini path ini =
        .error (.fileNotFound s!"Server INI file not found: {path}"))
    ∧ (ini.isFile = true →
        ((∃ e ∈ ini.sections, pyLower e.1 ≠ "defaults" ∧
            (missingFields (mergeSection
              ((alookup ini.sections "defaults").getD []) e.1 e.2)).isEmpty
              = false) ↔
          ∃ m, load_server_ini path ini = .error (.valueError m)))
    ∧ (ini.isFile = true →
        (∀ e ∈ ini.sections, pyLower e.1 ≠ "defaults" →
          (missingFields (mergeSection
            ((alookup ini.sections "defaults").getD []) e.1 e.2)).isEmpty
            = true) →
        load_server_ini path ini =
          .ok ((ini.sections.filter (fun e => !(pyLower e.1 == "defaults"))).map
            (fun e => mergeSection
              ((alookup ini.sections "defaults").getD []) e.1 e.2))) := by
  refine ⟨⟨fun h => by simp [load_server_ini, h], fun h => ?_⟩, fun hf => ⟨?_, ?_⟩,
    fun hf hall => ?_⟩
  · by_contra hfile
    have hf : ini.isFile = true := by
      cases hfi : ini.isFile
      · exact absurd hfi hfile
      · rfl
    rw [load_server_ini, hf] at h
    simp only [Bool.not_true, Bool.false_eq_true, if_false] at h
    exact iniLoop_no_fnf _ ini.sections _ h
  · intro hex
    rcases iniLoop_valueError _ ini.sections hex with ⟨m, hm⟩
    exact ⟨m, by rw [load_server_ini, hf]; simpa using hm⟩
  · rintro ⟨m, hm⟩
    by_contra hno
    push_neg at hno
    have hall : ∀ e ∈ ini.sections, pyLower e.1 ≠ "defaults" →
        (missingFields (mergeSection
          ((alookup ini.sections "defaults").getD []) e.1 e.2)).isEmpty = true := by
      intro e he hne
      have h := hno e he hne
      simpa using h
    have := iniLoop_ok _ ini.sections hall
    rw [load_server_ini, hf] at hm
    simp only [Bool.not_true, Bool.false_eq_true, if_false] at hm
    rw [this] at hm
    simp at hm
  · rw [load_server_ini, hf]
    simpa using iniLoop_ok _ ini.sections hall

/-- Witness for C6: a missing file, an inventory with a `defaults` section
and one complete server section, and an inventory whose only section lacks
both required fields. -/
theorem claim_C6_load_server_ini_witness :
    load_server_ini "servers.ini" ⟨false, []⟩ =
        .error (.fileNotFound "Server INI file not found: servers.ini")
    ∧ load_server_ini "servers.ini"
        ⟨true, [("defaults", [("username", "admin")]),
                ("web1", [("host", "10.0.0.1")])]⟩ =
        .ok [[("username", "admin"), ("host", "10.0.0.1"), ("name", "web1")]]
    ∧ (∃ m, load_server_ini "servers.ini" ⟨true, [("web2", [])]⟩ =
        .error (.valueError m)) := by
  refine ⟨?_, ?_, ?_⟩
  · exact (claim_C6_load_server_ini "servers.ini" ⟨false, []⟩).1.mp rfl
  · have h := (claim_C6_load_server_ini "servers.ini"
      ⟨true, [("defaults", [("username", "admin")]),
              ("web1", [("host", "10.0.0.1")])]⟩).2.2 rfl (by decide)
    exact h.trans rfl
  · exact ((claim_C6_load_server_ini "servers.ini" ⟨true, [("web2", [])]⟩).2.1
      rfl).mp ⟨("web2", []), by simp, by decide, by decide⟩

/-- **C4.** On the Linux path of `RemoteTomcatStartTool`, whenever the
readiness poll reports failure — the poll script exited with stderr because
the port never listened within the ready timeout, or the underlying
`executor.run` raised `TimeoutError`, which `_wait_for_ready_linux` catches
into `("", str(exc), False)` — `run` returns a result dict with status
`"Failed"` and details `"Timed out waiting for Tomcat port {port}"`.  The
embedded `run` is total (every raised `TimeoutError` is caught), so no
exception reaches the caller. -/
theorem claim_C4_start_ready_timeout (config : Dict) (tomcatHome : Option String)
    (home : String) (startStdout startStderr : String)
    (readyOutcome : ExecOutcome)
    (hhome : resolveHome config (linuxOsCfg config) tomcatHome = some home)
    (hne : home ≠ "")
    (hready : (wait_for_ready_linux readyOutcome).2.2 = false) :
    statusOf (tomcat_start_run_linux config tomcatHome
        (.ok startStdout startStderr) readyOutcome) = some "Failed"
    ∧ detailsOf (tomcat_start_run_linux config tomcatHome
        (.ok startStdout startStderr) readyOutcome) =
      some s!"Timed out waiting for Tomcat port {resolve_port (linuxOsCfg config) config}" := by
  simp only [tomcat_start_run_linux, hhome]
  rw [if_neg hne]
  simp only [start_linux, hready, Bool.not_false, if_true]
  constructor <;> simp [statusOf, detailsOf, lookupKey]

/-- Witness for C4 at a concrete call: empty config (defaults resolve to
port 8080), explicit home, start command succeeding quietly, readiness poll
raising `TimeoutError`. -/
theorem claim_C4_start_ready_timeout_witness :
    statusOf (tomcat_start_run_linux [] (some "/opt/tomcat")
        (.ok "" "") (.timeout "Remote command timed out after 125 seconds")) =
      some "Failed"
    ∧ detailsOf (tomcat_start_run_linux [] (some "/opt/tomcat")
        (.ok "" "") (.timeout "Remote command timed out after 125 seconds")) =
      some "Timed out waiting for Tomcat port 8080" := by
  have h := claim_C4_start_ready_timeout [] (some "/opt/tomcat") "/opt/tomcat"
    "" "" (.timeout "Remote command timed out after 125 seconds") rfl
    (by decide) rfl
  exact ⟨h.1, h.2.trans (by decide)⟩

theorem validationLoop_statusCode :
    ∀ (attempts : List HttpAttempt) (sc : Option Int) (le : Option String),
      (validationLoop attempts sc le).1 =
        match (observedCodes attempts).getLast? with
        | some c => some c
        | Option.none => sc := by
  intro attempts
  induction attempts with
  | nil => intro sc le; simp [validationLoop, observedCodes]
  | cons a rest ih =>
    intro sc le
    match a with
    | .exc msg => simpa [validationLoop, observedCodes] using ih sc (some msg)
    | .response code reason =>
      by_cases hok : respOk code
      · simp [validationLoop, observedCodes, hok]
      · simp only [validationLoop, observedCodes, hok, if_false,
          Bool.false_eq_true]
        rw [ih]
        cases hl : observedCodes rest with
        | nil => simp
        | cons x xs =>
          cases hgl : (x :: xs).getLast? with
          | some y => simp [hgl]
          | none =>
            have hs : (x :: xs).getLast?.isSome := by
              rw [List.getLast?_isSome]
              simp
            rw [hgl] at hs
            simp at hs

theorem statusOf_validation_run (waitSeconds : Int) (httpHost : String)
    (port : Int) (attempts : List HttpAttempt) (tomcatHome : Option String) :
    statusOf (tomcat_validation_run waitSeconds httpHost port attempts tomcatHome) =
      some (if (match (validationLoop attempts Option.none Option.none).1 with
        | some code => decide (200 ≤ code) && decide (code < 500)
        | Option.none => false) then "Success" else "Failed") := by
  unfold tomcat_validation_run
  cases tomcatHome with
  | none => simp [statusOf, lookupKey]
  | some h =>
    by_cases hh : h = "" <;> simp [statusOf, lookupKey, hh]

/-- **C8 (counterexample).** The claim ties Success to "at least one
response in [200,500)".  On the attempt sequence 404 then 503 (neither
breaks the loop, since `response.ok` is `code < 400`), the retained
`status_code` is the last one, 503, and the tool reports `"Failed"` even
though the received 404 lies in [200,500). -/
theorem claim_C8_counterexample :
    ¬ (statusOf (tomcat_validation_run 30 "web1" 8080
          [.response 404 "Not Found", .response 503 "Service Unavailable"]
          Option.none) = some "Success" ↔
        ∃ c ∈ receivedCodes [.response 404 "Not Found",
            .response 503 "Service Unavailable"], 200 ≤ c ∧ c < 500) := by
  decide

/-- **C8 (amended).** The validation tool reports `"Success"` iff at least
one response was received and the status code retained from the most recent
observed response — the poll breaks at the first code below 400 and
later exceptions do not clear the retained code — lies in [200,500); in
particular a final 404 counts as a running Tomcat, while a trailing 5xx, or
only connection failures/timeouts, yield `"Failed"` (the only other
status). -/
theorem claim_C8_validation (waitSeconds : Int) (httpHost : String)
    (port : Int) (attempts : List HttpAttempt) (tomcatHome : Option String) :
    (statusOf (tomcat_validation_run waitSeconds httpHost port attempts tomcatHome)
        = some "Success" ↔
      (∃ c, (observedCodes attempts).getLast? = some c ∧ 200 ≤ c ∧ c < 500))
    ∧ (statusOf (tomcat_validation_run waitSeconds httpHost port attempts tomcatHome)
        = some "Success" ∨
       statusOf (tomcat_validation_run waitSeconds httpHost port attempts tomcatHome)
        = some "Failed") := by
  rw [statusOf_validation_run, validationLoop_statusCode]
  cases hl : (observedCodes attempts).getLast? with
  | none => simp
  | some c =>
    by_cases h1 : 200 ≤ c <;> by_cases h2 : c < 500 <;> simp [h1, h2]

theorem postPhase_sublist (s : Settings) (tools : ToolRuns) (h : PyVal) :
    (postPhase s tools h).2.Sublist [Stage.start, Stage.validation, Stage.stop] := by
  unfold postPhase
  rcases hs1 : s.startCfg with _ | c1 <;>
    rcases hs2 : s.validationCfg with _ | c2 <;>
      rcases hs3 : s.stopCfg with _ | c3 <;>
        by_cases ht : pyTruthy (effectiveHome s h) <;>
          simp [hs1, hs2, hs3, ht]

theorem postPhase_stages (s : Settings) (tools : ToolRuns) (h : PyVal) :
    ∀ st ∈ (postPhase s tools h).2, stageCfgPresent s st = true := by
  unfold postPhase
  rcases hs1 : s.startCfg with _ | c1 <;>
    rcases hs2 : s.validationCfg with _ | c2 <;>
      rcases hs3 : s.stopCfg with _ | c3 <;>
        by_cases ht : pyTruthy (effectiveHome s h) <;>
          simp [hs1, hs2, hs3, ht, stageCfgPresent]

theorem installPhase_sublist (s : Settings) (tools : ToolRuns) :
    (installPhase s tools).2.Sublist
      [Stage.installTomcat, Stage.start, Stage.validation, Stage.stop] := by
  unfold installPhase
  rcases hs : s.installCfg with _ | c
  · simp only [hs]
    exact (postPhase_sublist s tools PyVal.none).trans (by decide)
  · simp only [hs]
    by_cases hst : statusOf tools.install = some "Success"
    · rw [if_pos hst]
      exact List.Sublist.cons₂ _ (postPhase_sublist s tools _)
    · rw [if_neg hst]
      exact (by decide : ([Stage.installTomcat]).Sublist
        [Stage.installTomcat, Stage.start, Stage.validation, Stage.stop])

theorem installPhase_stages (s : Settings) (tools : ToolRuns) :
    ∀ st ∈ (installPhase s tools).2, stageCfgPresent s st = true := by
  unfold installPhase
  rcases hs : s.installCfg with _ | c
  · simp only [hs]
    exact postPhase_stages s tools PyVal.none
  · simp only [hs]
    by_cases hst : statusOf tools.install = some "Success"
    · rw [if_pos hst]
      intro st hmem
      rcases List.mem_cons.mp hmem with hh | hh
      · subst hh; simp [stageCfgPresent, hs]
      · exact postPhase_stages s tools _ st hh
    · rw [if_neg hst]
      intro st hmem
      rcases List.mem_cons.mp hmem with hh | hh
      · subst hh; simp [stageCfgPresent, hs]
      · simp at hh

/-- **C3.** On a connected server, `run_for_server` invokes the tools in a
subsequence of the fixed order Java pre-install, Tomcat install, Tomcat
start, validation, stop; a stage is invoked only when its configuration
section is present; a non-`Success` Java result stops the workflow after
the Java stage and returns the results accumulated so far; and a
non-`Success` install result (with Java either absent or successful) stops
it after the install stage likewise. -/
theorem claim_C3_workflow (s : Settings) (tools : ToolRuns) (serverName : PyVal) :
    (run_for_server s .connected tools serverName).2.Sublist
        [Stage.java, Stage.installTomcat, Stage.start, Stage.validation,
         Stage.stop]
    ∧ (∀ st ∈ (run_for_server s .connected tools serverName).2,
        stageCfgPresent s st = true)
    ∧ (s.javaCfg.isSome = true → statusOf tools.java ≠ some "Success" →
        run_for_server s .connected tools serverName =
          ([("server", serverName), ("pre_install_java", .dict tools.java)],
           [Stage.java]))
    ∧ (s.installCfg.isSome = true → statusOf tools.install ≠ some "Success" →
        (∀ c, s.javaCfg = some c → statusOf tools.java = some "Success") →
        run_for_server s .connected tools serverName =
          (("server", serverName) ::
              (match s.javaCfg with
               | some _ => [("pre_install_java", .dict tools.java),
                   ("install_tomcat", .dict tools.install)]
               | Option.none => [("install_tomcat", .dict tools.install)]),
           (match s.javaCfg with
            | some _ => [Stage.java, Stage.installTomcat]
            | Option.none => [Stage.installTomcat]))) := by
  refine ⟨?_, ?_, ?_, ?_⟩
  · unfold run_for_server
    rcases hj : s.javaCfg with _ | c
    · simp only [hj]
      exact (installPhase_sublist s tools).trans (by decide)
    · simp only [hj]
      by_cases hja : statusOf tools.java = some "Success"
      · rw [if_pos hja]
        exact List.Sublist.cons₂ _
          ((installPhase_sublist s tools).trans (by decide))
      · rw [if_neg hja]
        exact (by decide : ([Stage.java]).Sublist
          [Stage.java, Stage.installTomcat, Stage.start, Stage.validation,
           Stage.stop])
  · unfold run_for_server
    rcases hj : s.javaCfg with _ | c
    · simp only [hj]
      exact installPhase_stages s tools
    · simp only [hj]
      by_cases hja : statusOf tools.java = some "Success"
      · rw [if_pos hja]
        intro st hmem
        rcases List.mem_cons.mp hmem with hh | hh
        · subst hh; simp [stageCfgPresent, hj]
        · exact installPhase_stages s tools st hh
      · rw [if_neg hja]
        intro st hmem
        rcases List.mem_cons.mp hmem with hh | hh
        · subst hh; simp [stageCfgPresent, hj]
        · simp at hh
  · intro hjs hja
    rcases hj : s.javaCfg with _ | c
    · rw [hj] at hjs; simp at hjs
    · simp [run_for_server, hj, hja]
  · intro his hins hjok
    rcases hi : s.installCfg with _ | ci
    · rw [hi] at his; simp at his
    · rcases hj : s.javaCfg with _ | cj
      · simp [run_for_server, hj, installPhase, hi, hins]
      · have hjv := hjok cj hj
        simp [run_for_server, hj, hjv, installPhase, hi, hins]

/-- Witness for C3: all five config sections present, Java succeeding and
the Tomcat install failing stops the workflow after the install stage. -/
theorem claim_C3_workflow_witness :
    run_for_server ⟨some [], some [], some [], some [], some [], PyVal.none⟩
        .connected
        ⟨[("status", PyVal.str "Success")], [("status", PyVal.str "Failed")],
         [], [], []⟩
        (PyVal.str "web1") =
      ([("server", PyVal.str "web1"),
        ("pre_install_java", PyVal.dict [("status", PyVal.str "Success")]),
        ("install_tomcat", PyVal.dict [("status", PyVal.str "Failed")])],
       [Stage.java, Stage.installTomcat]) := by
  have h := (claim_C3_workflow
    ⟨some [], some [], some [], some [], some [], PyVal.none⟩
    ⟨[("status", PyVal.str "Success")], [("status", PyVal.str "Failed")],
     [], [], []⟩
    (PyVal.str "web1")).2.2.2 rfl (by decide) (fun c hc => by decide)
  exact h

/-- **C7 (counterexample).** The claim requires every result dict of a
concrete tool's `run` to contain the keys `name`, `status`, `output` and
`details`; the unknown-OS result of `RemoteJavaInstallTool.run` (line 212)
has no `output` key. -/
theorem claim_C7_counterexample :
    hasKey javaUnknownOsResult "output" = false ∧
    hasKey javaUnknownOsResult "name" = true ∧
    statusOf javaUnknownOsResult = some "Failed" := by
  decide

theorem hasKey_validation_run (waitSeconds : Int) (httpHost : String)
    (port : Int) (attempts : List HttpAttempt) (tomcatHome : Option String)
    (k : String) (hk : k ∈ ["name", "status", "output", "details"]) :
    hasKey (tomcat_validation_run waitSeconds httpHost port attempts
      tomcatHome) k = true := by
  unfold tomcat_validation_run
  rcases tomcatHome with _ | hh
  · fin_cases hk <;> simp [hasKey, lookupKey]
  · by_cases hne : hh = "" <;> fin_cases hk <;> simp [hasKey, lookupKey, hne]

theorem resultContract_validation (waitSeconds : Int) (httpHost : String)
    (port : Int) (attempts : List HttpAttempt) (tomcatHome : Option String) :
    resultContract (tomcat_validation_run waitSeconds httpHost port attempts
      tomcatHome) := by
  have hst : statusOf (tomcat_validation_run waitSeconds httpHost port attempts
      tomcatHome) = some "Success" ∨
      statusOf (tomcat_validation_run waitSeconds httpHost port attempts
      tomcatHome) = some "Failed" := by
    rw [statusOf_validation_run]
    rcases (validationLoop attempts Option.none Option.none).1 with _ | c
    · simp
    · by_cases h1 : 200 ≤ c <;> by_cases h2 : c < 500 <;> simp [h1, h2]
  refine ⟨hasKey_validation_run _ _ _ _ _ _ (by simp),
    hasKey_validation_run _ _ _ _ _ _ (by simp),
    hasKey_validation_run _ _ _ _ _ _ (by simp),
    hasKey_validation_run _ _ _ _ _ _ (by simp), ?_⟩
  rcases hst with h | h
  · exact Or.inl h
  · exact Or.inr (Or.inr (Or.inl h))

/-- **C7 (amended).** `get_info` returns a dict with exactly the keys
`toolName`, `description`, `parameters` (parameters being the user
parameters when non-empty, else the declared ones); every result dict of
the embedded tools carries `name` and `status` with status drawn from
{`Success`, `Warning`, `Failed`, `Skipped`}, and all of them except the
unknown-OS (and exception) fallbacks of `RemoteJavaInstallTool.run` — which
omit `output` — also carry `output` and `details`. -/
theorem claim_C7_tool_contract (t : RemoteToolState) (msg : String)
    (logs : List String) (home : String) (tmpl : Option String) (port : Int)
    (so ro : ExecOutcome) (ws : Int) (hh : String)
    (att : List HttpAttempt) (th : Option String) (d : Dict) :
    ((get_info t).map Prod.fst = ["toolName", "description", "parameters"]
      ∧ lookupKey (get_info t) "parameters" =
          some (.dict (if !t.user_parameters.isEmpty then t.user_parameters
            else t.parameters)))
    ∧ resultContract (tomcatStartFailure msg logs)
    ∧ resultContract (portCheckFailure msg logs)
    ∧ (start_linux home tmpl port logs so ro = .ok d → resultContract d)
    ∧ resultContract (tomcat_validation_run ws hh port att th)
    ∧ (hasKey javaUnknownOsResult "name" = true
        ∧ hasKey javaUnknownOsResult "status" = true
        ∧ hasKey javaUnknownOsResult "details" = true
        ∧ hasKey javaUnknownOsResult "output" = false
        ∧ statusOf javaUnknownOsResult = some "Failed") := by
  refine ⟨⟨by simp [get_info], by simp [get_info, lookupKey]⟩, ?_, ?_, ?_,
    resultContract_validation ws hh port att th, by decide⟩
  · exact ⟨by simp [hasKey, lookupKey, tomcatStartFailure],
      by simp [hasKey, lookupKey, tomcatStartFailure],
      by simp [hasKey, lookupKey, tomcatStartFailure],
      by simp [hasKey, lookupKey, tomcatStartFailure],
      by simp [statusOf, lookupKey, tomcatStartFailure]⟩
  · exact ⟨by simp [hasKey, lookupKey, portCheckFailure],
      by simp [hasKey, lookupKey, portCheckFailure],
      by simp [hasKey, lookupKey, portCheckFailure],
      by simp [hasKey, lookupKey, portCheckFailure],
      by simp [statusOf, lookupKey, portCheckFailure]⟩
  · intro hok
    cases so with
    | timeout m => simp [start_linux] at hok
    | ok sout serr =>
      cases hrd : (wait_for_ready_linux ro).2.2 with
      | false =>
        simp only [start_linux, hrd, Bool.not_false, if_true,
          Except.ok.injEq] at hok
        subst hok
        exact ⟨by simp [hasKey, lookupKey], by simp [hasKey, lookupKey],
          by simp [hasKey, lookupKey], by simp [hasKey, lookupKey],
          Or.inr (Or.inr (Or.inl (by simp [statusOf, lookupKey])))⟩
      | true =>
        simp only [start_linux, hrd, Bool.not_true, Bool.false_eq_true,
          if_false, Except.ok.injEq] at hok
        subst hok
        refine ⟨by simp [hasKey, lookupKey], by simp [hasKey, lookupKey],
          by simp [hasKey, lookupKey], by simp [hasKey, lookupKey], ?_⟩
        by_cases hw : pyStrip serr = ""
        · exact Or.inl (by simp [statusOf, lookupKey, hw])
        · exact Or.inr (Or.inl (by simp [statusOf, lookupKey, hw]))

/-- Witness for the amended C7 at a concrete tool state and concrete
results. -/
theorem claim_C7_tool_contract_witness :
    (get_info ⟨"remote_tomcat_start",
        "Start Apache Tomcat remotely (Windows/Linux)", [],
        [("tomcat_home", PyVal.dict [])]⟩).map Prod.fst =
      ["toolName", "description", "parameters"]
    ∧ resultContract (tomcatStartFailure "Tomcat home directory not supplied"
        ["Detected OS: linux"])
    ∧ resultContract (tomcat_validation_run 30 "web1" 8080 [] Option.none) := by
  have h := claim_C7_tool_contract
    ⟨"remote_tomcat_start", "Start Apache Tomcat remotely (Windows/Linux)",
      [], [("tomcat_home", PyVal.dict [])]⟩
    "Tomcat home directory not supplied" ["Detected OS: linux"] "/opt/t"
    Option.none 8080 (.ok "" "") (.ok "" "") 30 "web1" [] Option.none []
  exact ⟨h.1.1, h.2.1, h.2.2.2.2.1⟩

end Tomcat
